import Mathlib

/-!
Shallow embedding of the Android EGL context manager
(`src/Graphics/GraphicsEngineOpenGL/src/GLContextAndroid.cpp`, class
`Diligent::GLContext`).

Handles (EGLDisplay, EGLSurface, EGLContext, EGLConfig, ANativeWindow*) are
modelled as `Nat`, with `0` standing for the sentinel values `EGL_NO_DISPLAY`,
`EGL_NO_SURFACE`, `EGL_NO_CONTEXT` and the null window pointer.  EGL error
codes are `Int` with their real numeric values.  The platform (EGL + GL) is an
abstract, deterministic oracle `EGLEnv`; every platform call a member function
performs is also recorded in an event trace, so that ordering and
emitted-diagnostic properties can be stated.  C++ exceptions raised by
`LOG_ERROR_AND_THROW` are modelled by an `exn` field carrying the message;
member-variable mutations made before the throw persist in the returned state,
exactly as they do for a C++ object whose method throws.
-/

namespace GLContextAndroid

/-- EGL error codes used by the source (numeric values from `egl.h`). -/
def EGL_SUCCESS : Int := 0x3000

def EGL_BAD_CONTEXT : Int := 0x3006

def EGL_BAD_SURFACE : Int := 0x300D

def EGL_CONTEXT_LOST : Int := 0x300E

/-- The member variables of `Diligent::GLContext`. -/
structure GLState where
  display : Nat
  surface : Nat
  context : Nat
  config : Nat
  window : Nat
  colorSize : Int
  depthSize : Int
  majorVersion : Int
  minorVersion : Int
  minSwapInterval : Int
  maxSwapInterval : Int
  screenWidth : Int
  screenHeight : Int
  contextValid : Bool
  eglContextInitialized : Bool
  glesInitialized : Bool
  deriving DecidableEq, Repr

/-- Events: the platform calls the manager makes, and the log lines it emits.
Log messages are abbreviated forms of the source's message text. -/
inductive Ev where
  | getDisplay
  | eglInit (d : Nat)
  | chooseConfig (d : Nat) (depth : Int)
  | createWindowSurface (d cfg w : Nat)
  | querySurfaceSize (d srf : Nat)
  | setBuffersGeometry (w : Nat)
  | queryConfigSwapBounds (d cfg : Nat)
  | createContext (d cfg : Nat) (mj mn : Int)
  | makeCurrent (d draw rd ctx : Nat)
  | swapInterval (d : Nat) (i : Int)
  | swapBuffers (d srf : Nat)
  | destroyContext (d ctx : Nat)
  | destroySurface (d srf : Nat)
  | terminateDisplay (d : Nat)
  | logInfo (msg : String)
  | logWarning (msg : String)
  | logError (msg : String)
  deriving DecidableEq, Repr

/-- The platform oracle: results of the EGL/GL calls the manager performs.
Deterministic within one call into the manager. -/
structure EGLEnv where
  /-- `eglGetDisplay(EGL_DEFAULT_DISPLAY)`; 0 = `EGL_NO_DISPLAY`. -/
  getDisplay : Nat
  /-- result of `eglInitialize`. -/
  initOk : Bool
  /-- `eglChooseConfig` keyed by display and requested depth size:
  (success, num_configs, chosen config). -/
  chooseConfig : Nat → Int → Bool × Nat × Nat
  /-- `eglCreateWindowSurface display config window`; 0 = `EGL_NO_SURFACE`. -/
  createWindowSurface : Nat → Nat → Nat → Nat
  /-- `eglQuerySurface … EGL_WIDTH`. -/
  surfaceWidth : Nat → Nat → Int
  /-- `eglQuerySurface … EGL_HEIGHT`. -/
  surfaceHeight : Nat → Nat → Int
  /-- `eglGetConfigAttrib … EGL_MIN_SWAP_INTERVAL`. -/
  minSwapBound : Nat → Nat → Int
  /-- `eglGetConfigAttrib … EGL_MAX_SWAP_INTERVAL`. -/
  maxSwapBound : Nat → Nat → Int
  /-- `eglCreateContext display config NULL attribs(mj, mn)`; 0 = no context. -/
  createContext : Nat → Nat → Int → Int → Nat
  /-- `eglMakeCurrent display surface surface context`. -/
  makeCurrent : Nat → Nat → Nat → Bool
  /-- `eglGetError()` observed after a failed `eglMakeCurrent` in `Resume`. -/
  makeCurrentError : Int
  /-- `eglGetCurrentContext()`. -/
  currentContext : Nat
  /-- `glGetIntegerv(GL_MAJOR_VERSION)`. -/
  glMajor : Int
  /-- `glGetIntegerv(GL_MINOR_VERSION)`. -/
  glMinor : Int
  /-- whether `glEnable(GL_FRAMEBUFFER_SRGB)` left no GL error. -/
  srgbOk : Bool
  /-- whether `glDebugMessageCallback` is non-null. -/
  hasDebugCallback : Bool
  /-- whether enabling debug output left no GL error. -/
  debugOk : Bool
  /-- `glGetString(GL_VERSION)`. -/
  glVersionStr : String

/-- Result of one member-function call: final member-variable state, event
trace, propagating exception (if any), and the EGLint return value for the
functions that have one (`Resume`). -/
structure Res where
  st : GLState
  tr : List Ev
  exn : Option String
  ret : Option Int
  deriving DecidableEq, Repr

/-- Second half of `GLContext::InitEGLSurface`, from the point where a config
has been chosen: create the window surface (throwing when the platform
returns the no-surface sentinel), cache the screen size, apply the native
buffer geometry, and cache the swap-interval bounds.  `depth` is the depth
size the config search ended with and `cfg` the chosen config. -/
def CreateSurfaceFromConfig (env : EGLEnv) (d cfg : Nat) (depth : Int) (t : List Ev)
    (s0 : GLState) : Res :=
  let srf := env.createWindowSurface d cfg s0.window
  if srf = 0 then
    ⟨{ s0 with display := d, colorSize := 8, depthSize := depth, config := cfg, surface := srf },
      t ++ [Ev.logInfo "Chosen EGL config", Ev.createWindowSurface d cfg s0.window,
        Ev.logError "Failed to create EGLSurface"],
      some "Failed to create EGLSurface", none⟩
  else
    ⟨{ s0 with
        display := d, colorSize := 8, depthSize := depth, config := cfg, surface := srf,
        screenWidth := env.surfaceWidth d srf, screenHeight := env.surfaceHeight d srf,
        minSwapInterval := env.minSwapBound d cfg, maxSwapInterval := env.maxSwapBound d cfg },
      t ++ [Ev.logInfo "Chosen EGL config", Ev.createWindowSurface d cfg s0.window,
        Ev.querySurfaceSize d srf, Ev.setBuffersGeometry s0.window,
        Ev.queryConfigSwapBounds d cfg],
      none, none⟩

/-- `GLContext::InitEGLSurface`.  Opens the display, initialises EGL, chooses
a config (8-bit color, 24-bit depth, falling back once to 16-bit depth),
then creates the window surface and caches screen size and the swap-interval
bounds.  Throws on fatal failures, with mutations made so far kept (the
config member is only overwritten when `eglChooseConfig` found a config). -/
def InitEGLSurface (env : EGLEnv) (s0 : GLState) : Res :=
  let d := env.getDisplay
  if d = 0 then
    ⟨{ s0 with display := d }, [Ev.getDisplay, Ev.logError "No EGL display found"],
      some "No EGL display found", none⟩
  else if env.initOk = false then
    ⟨{ s0 with display := d }, [Ev.getDisplay, Ev.eglInit d, Ev.logError "Failed to initialise EGL"],
      some "Failed to initialise EGL", none⟩
  else
  let c1 := env.chooseConfig d 24
  let t := [Ev.getDisplay, Ev.eglInit d, Ev.chooseConfig d 24]
  if c1.1 = false then
    ⟨{ s0 with display := d, colorSize := 8, depthSize := 24 },
      t ++ [Ev.logError "Failed to choose config"], some "Failed to choose config", none⟩
  else if c1.2.1 ≠ 0 then
    CreateSurfaceFromConfig env d c1.2.2 24 t s0
  else
    -- no 24-bit depth config matched: fall back to a 16-bit depth buffer
    let c2 := env.chooseConfig d 16
    let t := t ++ [Ev.chooseConfig d 16]
    if c2.1 = false then
      ⟨{ s0 with display := d, colorSize := 8, depthSize := 16 },
        t ++ [Ev.logError "Failed to choose 16-bit depth config"],
        some "Failed to choose 16-bit depth config", none⟩
    else if c2.2.1 = 0 then
      ⟨{ s0 with display := d, colorSize := 8, depthSize := 16 },
        t ++ [Ev.logError "Unable to retrieve EGL config"],
        some "Unable to retrieve EGL config", none⟩
    else
      CreateSurfaceFromConfig env d c2.2.2 16 t s0

/-- The fixed descending candidate list `es_versions` of
`GLContext::InitEGLContext`. -/
def esVersions : List (Int × Int) := [(3, 2), (3, 1), (3, 0)]

/-- The `for` loop of `GLContext::InitEGLContext`: while the context is still
`EGL_NO_CONTEXT`, record the candidate version into `major_version_` /
`minor_version_` and attempt `eglCreateContext`.  Returns final
(major, minor), context handle and the trace of attempts. -/
def negotiate (env : EGLEnv) (d cfg : Nat) :
    List (Int × Int) → Int → Int → Nat → (Int × Int) × Nat × List Ev
  | [], mj, mn, ctx => ((mj, mn), ctx, [])
  | v :: rest, mj, mn, ctx =>
    if ctx ≠ 0 then ((mj, mn), ctx, [])
    else
      let c := env.createContext d cfg v.1 v.2
      let r := negotiate env d cfg rest v.1 v.2 c
      (r.1, r.2.1, Ev.createContext d cfg v.1 v.2 :: r.2.2)

/-- `GLContext::InitEGLContext`.  Runs the negotiation loop, throws if no
candidate succeeded, makes the context current (throwing on failure) and sets
`context_valid_`. -/
def InitEGLContext (env : EGLEnv) (s0 : GLState) : Res :=
  let r := negotiate env s0.display s0.config esVersions s0.majorVersion s0.minorVersion s0.context
  let s := { s0 with majorVersion := r.1.1, minorVersion := r.1.2, context := r.2.1 }
  let t := r.2.2
  if s.context = 0 then
    ⟨s, t ++ [Ev.logError "Failed to create EGLContext"], some "Failed to create EGLContext", none⟩
  else
  let t := t ++ [Ev.makeCurrent s.display s.surface s.surface s.context]
  if env.makeCurrent s.display s.surface s.context = false then
    ⟨s, t ++ [Ev.logError "Unable to eglMakeCurrent"], some "Unable to eglMakeCurrent", none⟩
  else
    ⟨{ s with contextValid := true }, t ++ [Ev.logInfo "Created OpenGLES Context"], none, none⟩

/-- `GLContext::AttachToCurrentEGLContext`: no window was supplied, so attach
to an externally current context and read the GL version directly. -/
def AttachToCurrentEGLContext (env : EGLEnv) (s : GLState) : Res :=
  if env.currentContext = 0 then
    ⟨s, [Ev.logError "Failed to attach to EGLContext: no active context"],
      some "Failed to attach to EGLContext: no active context", none⟩
  else
    ⟨{ s with contextValid := true, majorVersion := env.glMajor, minorVersion := env.glMinor },
      [], none, none⟩

/-- `GLContext::InitGLES`: one-time GL-side initialisation guarded by
`gles_initialized_`. -/
def InitGLES (env : EGLEnv) (s : GLState) : Res :=
  if s.glesInitialized then ⟨s, [], none, none⟩
  else
  let t := [Ev.logInfo "GL Version"]
  let t := if env.srgbOk then t else t ++ [Ev.logError "Failed to enable SRGB framebuffers"]
  ⟨{ s with glesInitialized := true }, t, none, none⟩

/-- `GLContext::Init(window)`: idempotent via `egl_context_initialized_`;
window path runs surface then context creation, null-window path attaches to
the current context; always finishes with `InitGLES` and the debug-callback
setup. -/
def Init (env : EGLEnv) (w : Nat) (s : GLState) : Res :=
  if s.eglContextInitialized then ⟨s, [], none, none⟩
  else
  let s := { s with window := w }
  let r1 :=
    if w ≠ 0 then
      let ra := InitEGLSurface env s
      if ra.exn.isSome then ra
      else
        let rb := InitEGLContext env ra.st
        ⟨rb.st, ra.tr ++ rb.tr, rb.exn, none⟩
    else AttachToCurrentEGLContext env s
  if r1.exn.isSome then r1
  else
  let r2 := InitGLES env r1.st
  let t := r1.tr ++ r2.tr
  let t :=
    if env.hasDebugCallback then
      t ++ (if env.debugOk then [] else [Ev.logError "Failed to enable debug messages"])
    else t
  ⟨{ r2.st with eglContextInitialized := true }, t, none, none⟩

/-- `GLContext::Terminate`: if a display is held, unbind the current context,
destroy the context (if any), destroy the surface (if any), terminate the
display; then reset all three handles to their sentinels and clear
`context_valid_`.  Never throws. -/
def Terminate (s : GLState) : GLState × List Ev :=
  let t :=
    if s.display ≠ 0 then
      [Ev.makeCurrent s.display 0 0 0]
        ++ (if s.context ≠ 0 then [Ev.destroyContext s.display s.context] else [])
        ++ (if s.surface ≠ 0 then [Ev.destroySurface s.display s.surface] else [])
        ++ [Ev.terminateDisplay s.display]
    else []
  ({ s with display := 0, context := 0, surface := 0, contextValid := false }, t)

/-- `GLContext::SwapBuffers(SwapInterval)`.  `swapOk` is the outcome of this
call's `eglSwapBuffers` and `err` the `eglGetError()` observed when it failed. -/
def SwapBuffers (env : EGLEnv) (swapOk : Bool) (err : Int) (interval : Int) (s : GLState) : Res :=
  if s.surface = 0 then
    ⟨s, [Ev.logWarning "No EGL surface when swapping buffers"], none, none⟩
  else
  let i := max interval s.minSwapInterval
  let i := min i s.maxSwapInterval
  let t := [Ev.swapInterval s.display i, Ev.swapBuffers s.display s.surface]
  if swapOk then ⟨s, t, none, none⟩
  else if err = EGL_BAD_SURFACE then
    let t := t ++ [Ev.logInfo "EGL surface has been lost. Attempting to recreate"]
    let r2 := InitEGLSurface env s
    if r2.exn.isSome then
      ⟨r2.st, t ++ r2.tr ++ [Ev.logError "Failed to recreate EGL surface"], none, none⟩
    else ⟨r2.st, t ++ r2.tr, none, none⟩
  else if err = EGL_CONTEXT_LOST ∨ err = EGL_BAD_CONTEXT then
    let s1 := { s with contextValid := false }
    let p := Terminate s1
    let r3 := InitEGLContext env p.1
    ⟨r3.st, t ++ p.2 ++ r3.tr, r3.exn, none⟩
  else ⟨s, t, none, none⟩

/-- `GLContext::UpdateScreenSize`: query the surface dimensions; when they
differ from the cache, update the cache and emit the resize diagnostic. -/
def UpdateScreenSize (env : EGLEnv) (s : GLState) : GLState × List Ev :=
  let nw := env.surfaceWidth s.display s.surface
  let nh := env.surfaceHeight s.display s.surface
  let t := [Ev.querySurfaceSize s.display s.surface]
  if nw ≠ s.screenWidth ∨ nh ≠ s.screenHeight then
    ({ s with screenWidth := nw, screenHeight := nh },
      t ++ [Ev.logInfo "Window size changed"])
  else (s, t)

/-- `GLContext::Resume(window)`: full `Init` when never initialised (returning
`EGL_SUCCESS`); otherwise recreate the surface from the cached config, refresh
the screen-size cache, attempt make-current, and on failure run the
error-code-directed recovery, returning the observed error code. -/
def Resume (env : EGLEnv) (w : Nat) (s : GLState) : Res :=
  let t0 := [Ev.logInfo "Resuming gl context"]
  if s.eglContextInitialized = false then
    let r := Init env w s
    ⟨r.st, t0 ++ r.tr, r.exn, if r.exn.isSome then none else some EGL_SUCCESS⟩
  else
  let s := { s with window := w }
  let srf := env.createWindowSurface s.display s.config w
  let s := { s with surface := srf }
  let t := t0 ++ [Ev.createWindowSurface s.display s.config w]
  let p := UpdateScreenSize env s
  let s := p.1
  let t := t ++ p.2 ++ [Ev.makeCurrent s.display srf srf s.context]
  if env.makeCurrent s.display srf s.context then
    ⟨s, t, none, some EGL_SUCCESS⟩
  else
  let err := env.makeCurrentError
  let t := t ++ [Ev.logWarning "Unable to eglMakeCurrent (resume)"]
  if err = EGL_CONTEXT_LOST then
    let t := t ++ [Ev.logInfo "Re-creating egl context"]
    let r := InitEGLContext env s
    ⟨r.st, t ++ r.tr, r.exn, if r.exn.isSome then none else some err⟩
  else
    let t := t ++ [Ev.logInfo "Re-creating egl context and surface"]
    let p2 := Terminate s
    let r1 := InitEGLSurface env p2.1
    if r1.exn.isSome then
      ⟨r1.st, t ++ p2.2 ++ r1.tr, r1.exn, none⟩
    else
      let r2 := InitEGLContext env r1.st
      ⟨r2.st, t ++ p2.2 ++ r1.tr ++ r2.tr, r2.exn, if r2.exn.isSome then none else some err⟩

/-- `GLContext::Suspend`: destroy the surface (if any), keeping display,
config and context. -/
def Suspend (s : GLState) : GLState × List Ev :=
  let t := [Ev.logInfo "Suspending gl context"]
  if s.surface ≠ 0 then
    ({ s with surface := 0 },
      t ++ [Ev.logInfo "Destroying egl surface", Ev.destroySurface s.display s.surface])
  else (s, t)

/-- `GLContext::Invalidate`: full terminate, then clear
`egl_context_initialized_`; returns true. -/
def Invalidate (s : GLState) : (GLState × List Ev) × Bool :=
  let p := Terminate s
  (({ p.1 with eglContextInitialized := false },
    Ev.logInfo "Invalidating gl context" :: p.2), true)

/-- The capability descriptor written by `GLContext::FillDeviceCaps`. -/
structure DeviceCaps where
  devTypeGLES : Bool
  major : Int
  minor : Int
  deriving DecidableEq, Repr

/-- `GLContext::FillDeviceCaps`. -/
def FillDeviceCaps (s : GLState) : DeviceCaps :=
  ⟨true, s.majorVersion, s.minorVersion⟩

/-- The swap intervals actually applied (payloads of `eglSwapInterval` calls)
in a trace. -/
def appliedIntervals (t : List Ev) : List Int :=
  t.filterMap fun e =>
    match e with
    | Ev.swapInterval _ i => some i
    | _ => none

/-- The `eglCreateContext` version attempts recorded in a trace. -/
def contextAttempts (t : List Ev) : List (Int × Int) :=
  t.filterMap fun e =>
    match e with
    | Ev.createContext _ _ mj mn => some (mj, mn)
    | _ => none

/-- The first candidate version accepted by the platform, with the context
handle it produced. -/
def firstAccepted (env : EGLEnv) (d cfg : Nat) : List (Int × Int) → Option ((Int × Int) × Nat)
  | [] => none
  | v :: rest =>
    let c := env.createContext d cfg v.1 v.2
    if c ≠ 0 then some (v, c) else firstAccepted env d cfg rest

/-- Rank of the release calls `Terminate` makes, in the order the source
performs them: unbind, destroy context, destroy surface, terminate display. -/
def releaseRank : Ev → Nat
  | Ev.makeCurrent _ _ _ _ => 0
  | Ev.destroyContext _ _ => 1
  | Ev.destroySurface _ _ => 2
  | Ev.terminateDisplay _ => 3
  | _ => 0

/-- A state with every member at its constructed-fresh value (all handles at
their sentinels, flags clear, versions zero). -/
def freshState : GLState where
  display := 0
  surface := 0
  context := 0
  config := 0
  window := 0
  colorSize := 0
  depthSize := 0
  majorVersion := 0
  minorVersion := 0
  minSwapInterval := 0
  maxSwapInterval := 0
  screenWidth := 0
  screenHeight := 0
  contextValid := false
  eglContextInitialized := false
  glesInitialized := false

/-- A fully initialised manager state, as produced by a successful `Init`
against `benignEnv`. -/
def liveState : GLState :=
  { freshState with
      display := 9, surface := 11, context := 13, config := 7, window := 3,
      colorSize := 8, depthSize := 24, majorVersion := 3, minorVersion := 2,
      minSwapInterval := 0, maxSwapInterval := 4,
      screenWidth := 640, screenHeight := 480,
      contextValid := true, eglContextInitialized := true, glesInitialized := true }

/-- A well-behaved platform: every call succeeds. -/
def benignEnv : EGLEnv where
  getDisplay := 9
  initOk := true
  chooseConfig := fun _ _ => (true, 1, 7)
  createWindowSurface := fun _ _ _ => 11
  surfaceWidth := fun _ _ => 640
  surfaceHeight := fun _ _ => 480
  minSwapBound := fun _ _ => 0
  maxSwapBound := fun _ _ => 4
  createContext := fun _ _ _ _ => 13
  makeCurrent := fun _ _ _ => true
  makeCurrentError := EGL_SUCCESS
  currentContext := 0
  glMajor := 3
  glMinor := 1
  srgbOk := true
  hasDebugCallback := false
  debugOk := true
  glVersionStr := "OpenGL ES 3.2"

/-- A platform on which every `eglCreateContext` attempt fails. -/
def noContextEnv : EGLEnv :=
  { benignEnv with createContext := fun _ _ _ _ => 0 }

/-- A platform whose created surface handle depends on the config used, to
observe which config a surface was created against. -/
def configSensitiveEnv : EGLEnv :=
  { benignEnv with createWindowSurface := fun _ c _ => if c = 7 then 200 else 100 }

/-- A platform that accepts only the lowest context-version candidate. -/
def lowestOnlyEnv : EGLEnv :=
  { benignEnv with
      createContext := fun _ _ mj mn => if mj = 3 ∧ mn = 0 then 21 else 0 }

/-- A platform on which making the old context (13) current fails with
`EGL_BAD_SURFACE`, while the freshly negotiated context (21) can be made
current, so that Resume's full terminate-and-recreate recovery succeeds. -/
def resumeFailEnv : EGLEnv :=
  { benignEnv with
      createContext := fun _ _ _ _ => 21,
      makeCurrent := fun _ _ c => c == 21,
      makeCurrentError := EGL_BAD_SURFACE }

/-- A state with the display handle at its sentinel while surface and context
handles are live, as left behind when an exception escapes a recovery path. -/
def sentinelDisplayState : GLState :=
  { liveState with display := 0, surface := 5, context := 3 }

/-! ## Helper lemmas -/

theorem appliedIntervals_append (a b : List Ev) :
    appliedIntervals (a ++ b) = appliedIntervals a ++ appliedIntervals b := by
  simp [appliedIntervals]

theorem negotiate_tr_events (env : EGLEnv) (d cfg : Nat) (l : List (Int × Int))
    (mj mn : Int) (ctx : Nat) :
    ∀ e ∈ (negotiate env d cfg l mj mn ctx).2.2,
      ∃ mj2 mn2, e = Ev.createContext d cfg mj2 mn2 := by
  induction l generalizing mj mn ctx with
  | nil => simp [negotiate]
  | cons v rest ih =>
    by_cases h : ctx = 0
    · intro e he
      simp only [negotiate, h, ne_eq, not_true_eq_false, if_false, List.mem_cons] at he
      rcases he with rfl | he
      · exact ⟨v.1, v.2, rfl⟩
      · exact ih _ _ _ e he
    · intro e he
      simp [negotiate, h] at he

theorem appliedIntervals_negotiate (env : EGLEnv) (d cfg : Nat) (l : List (Int × Int))
    (mj mn : Int) (ctx : Nat) :
    appliedIntervals (negotiate env d cfg l mj mn ctx).2.2 = [] := by
  rw [appliedIntervals, List.filterMap_eq_nil_iff]
  intro e he
  obtain ⟨mj2, mn2, rfl⟩ := negotiate_tr_events env d cfg l mj mn ctx e he
  rfl

theorem appliedIntervals_createSurfaceFromConfig (env : EGLEnv) (d cfg : Nat) (depth : Int)
    (t : List Ev) (s : GLState) :
    appliedIntervals (CreateSurfaceFromConfig env d cfg depth t s).tr =
      appliedIntervals t := by
  simp only [CreateSurfaceFromConfig]
  split_ifs <;> simp [appliedIntervals, List.filterMap_append]

theorem appliedIntervals_initEGLSurface (env : EGLEnv) (s : GLState) :
    appliedIntervals (InitEGLSurface env s).tr = [] := by
  simp only [InitEGLSurface]
  split_ifs <;>
    simp only [appliedIntervals_createSurfaceFromConfig] <;> rfl

theorem appliedIntervals_initEGLContext (env : EGLEnv) (s : GLState) :
    appliedIntervals (InitEGLContext env s).tr = [] := by
  simp only [InitEGLContext]
  split_ifs <;>
    simp only [appliedIntervals_append, appliedIntervals_negotiate] <;> rfl

theorem appliedIntervals_terminate (s : GLState) :
    appliedIntervals (Terminate s).2 = [] := by
  simp only [Terminate]
  split_ifs <;> rfl

theorem initEGLSurface_preserves (env : EGLEnv) (s : GLState) :
    (InitEGLSurface env s).st.context = s.context ∧
    (InitEGLSurface env s).st.contextValid = s.contextValid ∧
    (InitEGLSurface env s).st.window = s.window ∧
    (InitEGLSurface env s).st.eglContextInitialized = s.eglContextInitialized := by
  simp only [InitEGLSurface, CreateSurfaceFromConfig]
  split_ifs <;> simp

theorem initEGLSurface_success_surface (env : EGLEnv) (s : GLState)
    (h : (InitEGLSurface env s).exn = none) :
    (InitEGLSurface env s).st.surface ≠ 0 := by
  simp only [InitEGLSurface, CreateSurfaceFromConfig] at h ⊢
  split_ifs at h ⊢ <;> simp_all

theorem initEGLSurface_chooses_config (env : EGLEnv) (s : GLState)
    (hd : env.getDisplay ≠ 0) (hi : env.initOk = true) :
    Ev.chooseConfig env.getDisplay 24 ∈ (InitEGLSurface env s).tr := by
  simp only [InitEGLSurface, CreateSurfaceFromConfig]
  split_ifs <;> simp_all

theorem updateScreenSize_preserves (env : EGLEnv) (s : GLState) :
    (UpdateScreenSize env s).1.display = s.display ∧
    (UpdateScreenSize env s).1.surface = s.surface ∧
    (UpdateScreenSize env s).1.context = s.context ∧
    (UpdateScreenSize env s).1.config = s.config ∧
    (UpdateScreenSize env s).1.contextValid = s.contextValid ∧
    (UpdateScreenSize env s).1.window = s.window ∧
    (UpdateScreenSize env s).1.eglContextInitialized = s.eglContextInitialized := by
  simp only [UpdateScreenSize]
  split_ifs <;> simp

theorem negotiate_esVersions_eq (env : EGLEnv) (d cfg : Nat) (mj mn : Int) :
    negotiate env d cfg esVersions mj mn 0 =
      if env.createContext d cfg 3 2 ≠ 0 then
        ((3, 2), env.createContext d cfg 3 2, [Ev.createContext d cfg 3 2])
      else if env.createContext d cfg 3 1 ≠ 0 then
        ((3, 1), env.createContext d cfg 3 1,
          [Ev.createContext d cfg 3 2, Ev.createContext d cfg 3 1])
      else
        ((3, 0), env.createContext d cfg 3 0,
          [Ev.createContext d cfg 3 2, Ev.createContext d cfg 3 1,
            Ev.createContext d cfg 3 0]) := by
  by_cases h32 : env.createContext d cfg 3 2 = 0 <;>
    by_cases h31 : env.createContext d cfg 3 1 = 0 <;>
      by_cases h30 : env.createContext d cfg 3 0 = 0 <;>
        simp [negotiate, esVersions, h32, h31, h30]

theorem initGLES_st (env : EGLEnv) (s : GLState) :
    (InitGLES env s).st = { s with glesInitialized := true } := by
  cases s
  simp only [InitGLES]
  split_ifs with h <;> simp_all

theorem initEGLContext_success_major (env : EGLEnv) (s : GLState) (h : s.context = 0)
    (hex : (InitEGLContext env s).exn = none) :
    (InitEGLContext env s).st.majorVersion = 3 := by
  simp only [InitEGLContext, h, negotiate_esVersions_eq] at hex ⊢
  split_ifs at hex ⊢ <;> simp_all

theorem init_success_major (env : EGLEnv) (w : Nat) (s : GLState)
    (h : s.eglContextInitialized = false) (hc : s.context = 0) (hw : w ≠ 0)
    (hex : (Init env w s).exn = none) :
    (Init env w s).st.majorVersion = 3 := by
  obtain ⟨d, srf, ctx, cfg, win, cs, ds, mj, mn, mini, maxi, sw, sh, cv, eci, gi⟩ := s
  dsimp only at h hc
  subst h
  subst hc
  by_cases hex1 : (InitEGLSurface env
      ⟨d, srf, 0, cfg, w, cs, ds, mj, mn, mini, maxi, sw, sh, cv, false, gi⟩).exn.isSome
  · exact absurd (by simpa [Init, hw, hex1] using hex)
      (Option.isSome_iff_ne_none.mp hex1)
  · by_cases hex2 : (InitEGLContext env (InitEGLSurface env
        ⟨d, srf, 0, cfg, w, cs, ds, mj, mn, mini, maxi, sw, sh, cv, false, gi⟩).st).exn.isSome
    · exact absurd (by simpa [Init, hw, hex1, hex2] using hex)
        (Option.isSome_iff_ne_none.mp hex2)
    · have hmaj := initEGLContext_success_major env
        (InitEGLSurface env
          ⟨d, srf, 0, cfg, w, cs, ds, mj, mn, mini, maxi, sw, sh, cv, false, gi⟩).st
        (by rw [(initEGLSurface_preserves env _).1])
        (Option.not_isSome_iff_eq_none.mp hex2)
      simp [Init, hw, hex1, hex2, initGLES_st, hmaj]

/-! ## Claim theorems -/

/-- C2: for every requested swap interval `r`, the interval actually applied
to the platform by `SwapBuffers` is exactly `clamp(r, min, max)` of the cached
swap-interval bounds — one `eglSwapInterval` call with the clamped value when
a surface exists, none at all when `SwapBuffers` no-ops; the raw request is
never passed through unclamped. -/
theorem present_swap_interval_clamped (env : EGLEnv) (swapOk : Bool) (err r : Int)
    (s : GLState) :
    appliedIntervals (SwapBuffers env swapOk err r s).tr =
      if s.surface = 0 then []
      else [min (max r s.minSwapInterval) s.maxSwapInterval] := by
  simp only [SwapBuffers]
  split_ifs <;>
    simp only [appliedIntervals_append, appliedIntervals_initEGLSurface,
      appliedIntervals_initEGLContext, appliedIntervals_terminate] <;> rfl

/-- C9: `UpdateScreenSize` updates the cached (width, height) and emits the
resize diagnostic exactly when the freshly queried dimensions differ from the
cache; when they are equal it leaves the state unchanged and emits no
diagnostic. -/
theorem screen_size_cache_update (env : EGLEnv) (s : GLState) :
    (env.surfaceWidth s.display s.surface = s.screenWidth ∧
        env.surfaceHeight s.display s.surface = s.screenHeight →
      (UpdateScreenSize env s).1 = s ∧
        Ev.logInfo "Window size changed" ∉ (UpdateScreenSize env s).2) ∧
    (¬(env.surfaceWidth s.display s.surface = s.screenWidth ∧
        env.surfaceHeight s.display s.surface = s.screenHeight) →
      (UpdateScreenSize env s).1 =
          { s with screenWidth := env.surfaceWidth s.display s.surface,
                   screenHeight := env.surfaceHeight s.display s.surface } ∧
        Ev.logInfo "Window size changed" ∈ (UpdateScreenSize env s).2) := by
  constructor
  · intro h
    simp [UpdateScreenSize, h.1, h.2]
  · intro h
    rw [not_and_or] at h
    simp only [UpdateScreenSize, if_pos h]
    simp

/-- Witness for C9: on `liveState` the queried 640×480 equals the cache (no
update, no diagnostic); on `freshState` it differs (cache updated, diagnostic
emitted). -/
theorem screen_size_cache_update_witness :
    ((UpdateScreenSize benignEnv liveState).1 = liveState ∧
      Ev.logInfo "Window size changed" ∉ (UpdateScreenSize benignEnv liveState).2) ∧
    ((UpdateScreenSize benignEnv freshState).1 =
        { freshState with screenWidth := 640, screenHeight := 480 } ∧
      Ev.logInfo "Window size changed" ∈ (UpdateScreenSize benignEnv freshState).2) :=
  ⟨(screen_size_cache_update benignEnv liveState).1 (by decide),
   (screen_size_cache_update benignEnv freshState).2 (by decide)⟩

/-- C5: `Terminate` leaves all three handles at their sentinels with the
validity flag false, a second call is a no-op performing no platform calls
(idempotence, no error), and the release calls it makes are ordered context
first, then surface, then display termination. -/
theorem terminate_idempotent_release_order (s : GLState) :
    (Terminate s).1.display = 0 ∧ (Terminate s).1.surface = 0 ∧
    (Terminate s).1.context = 0 ∧ (Terminate s).1.contextValid = false ∧
    Terminate (Terminate s).1 = ((Terminate s).1, []) ∧
    List.Pairwise (fun a b => releaseRank a ≤ releaseRank b) (Terminate s).2 ∧
    (s.display ≠ 0 → s.context ≠ 0 →
      Ev.destroyContext s.display s.context ∈ (Terminate s).2) ∧
    (s.display ≠ 0 → s.surface ≠ 0 →
      Ev.destroySurface s.display s.surface ∈ (Terminate s).2) ∧
    (s.display ≠ 0 → Ev.terminateDisplay s.display ∈ (Terminate s).2) := by
  by_cases hd : s.display = 0 <;> by_cases hc : s.context = 0 <;>
    by_cases hs : s.surface = 0 <;>
      simp_all [Terminate, releaseRank, List.pairwise_cons]

/-- Witness for C5 at a live state holding all three handles. -/
theorem terminate_idempotent_release_order_witness :
    liveState.display ≠ 0 ∧ liveState.context ≠ 0 ∧ liveState.surface ≠ 0 ∧
    (Terminate liveState).1.display = 0 ∧ (Terminate liveState).1.contextValid = false ∧
    Terminate (Terminate liveState).1 = ((Terminate liveState).1, []) ∧
    Ev.destroyContext liveState.display liveState.context ∈ (Terminate liveState).2 ∧
    Ev.destroySurface liveState.display liveState.surface ∈ (Terminate liveState).2 ∧
    Ev.terminateDisplay liveState.display ∈ (Terminate liveState).2 :=
  ⟨by decide, by decide, by decide,
   (terminate_idempotent_release_order liveState).1,
   (terminate_idempotent_release_order liveState).2.2.2.1,
   (terminate_idempotent_release_order liveState).2.2.2.2.1,
   (terminate_idempotent_release_order liveState).2.2.2.2.2.2.1 (by decide) (by decide),
   (terminate_idempotent_release_order liveState).2.2.2.2.2.2.2.1 (by decide) (by decide),
   (terminate_idempotent_release_order liveState).2.2.2.2.2.2.2.2 (by decide)⟩

/-- C7 counterexample: the surface-loss recovery does not recreate the surface
against the cached configuration.  With the cached config 42 the platform
would return surface 100, but the recovery re-chooses config 7 and creates
surface 200. -/
theorem surface_recreation_uses_new_config_cex :
    (SwapBuffers configSensitiveEnv false EGL_BAD_SURFACE 0
        { liveState with config := 42 }).st.surface = 200 ∧
    configSensitiveEnv.createWindowSurface liveState.display 42 liveState.window = 100 ∧
    (SwapBuffers configSensitiveEnv false EGL_BAD_SURFACE 0
        { liveState with config := 42 }).exn = none := by
  decide

/-- C7 (amended): on a surface-lost swap failure, Present recreates the
surface by re-running the full surface-initialization routine (which
re-selects the configuration) against the same window; any exception from the
recreation is caught locally and logged, never propagating out of Present;
afterward the context handle and validity flag are unchanged in every case,
and the surface is non-null whenever the recreation succeeded. -/
theorem present_surface_loss_recovery (env : EGLEnv) (r : Int) (s : GLState)
    (h : s.surface ≠ 0) :
    (SwapBuffers env false EGL_BAD_SURFACE r s).exn = none ∧
    (SwapBuffers env false EGL_BAD_SURFACE r s).st = (InitEGLSurface env s).st ∧
    (SwapBuffers env false EGL_BAD_SURFACE r s).st.context = s.context ∧
    (SwapBuffers env false EGL_BAD_SURFACE r s).st.contextValid = s.contextValid ∧
    (SwapBuffers env false EGL_BAD_SURFACE r s).st.window = s.window ∧
    ((InitEGLSurface env s).exn = none →
      (SwapBuffers env false EGL_BAD_SURFACE r s).st.surface ≠ 0) := by
  have hpres := initEGLSurface_preserves env s
  simp only [SwapBuffers, if_neg h]
  by_cases hex : (InitEGLSurface env s).exn.isSome <;>
    simp_all [initEGLSurface_success_surface, EGL_BAD_SURFACE]

/-- Witness for C7 (amended) on a live state with a benign platform. -/
theorem present_surface_loss_recovery_witness :
    liveState.surface ≠ 0 ∧
    (InitEGLSurface benignEnv liveState).exn = none ∧
    (SwapBuffers benignEnv false EGL_BAD_SURFACE 0 liveState).exn = none ∧
    (SwapBuffers benignEnv false EGL_BAD_SURFACE 0 liveState).st.context = liveState.context ∧
    (SwapBuffers benignEnv false EGL_BAD_SURFACE 0 liveState).st.contextValid
      = liveState.contextValid ∧
    (SwapBuffers benignEnv false EGL_BAD_SURFACE 0 liveState).st.surface ≠ 0 :=
  ⟨by decide, by decide,
   (present_surface_loss_recovery benignEnv 0 liveState (by decide)).1,
   (present_surface_loss_recovery benignEnv 0 liveState (by decide)).2.2.1,
   (present_surface_loss_recovery benignEnv 0 liveState (by decide)).2.2.2.1,
   (present_surface_loss_recovery benignEnv 0 liveState (by decide)).2.2.2.2.2 (by decide)⟩

/-- C6 counterexample: the pixel-format configuration is reselected by
constraint-matching during the Present surface-loss recovery, without any
reinitialization of the manager: the cached config 42 is replaced by the
freshly matched config 7. -/
theorem config_reselected_on_present_recovery_cex :
    (SwapBuffers benignEnv false EGL_BAD_SURFACE 0
        { liveState with config := 42 }).st.config = 7 ∧
    ({ liveState with config := 42 } : GLState).config = 42 ∧
    (SwapBuffers benignEnv false EGL_BAD_SURFACE 0
        { liveState with config := 42 }).exn = none := by
  decide

/-- C6 (amended): only Resume's normal path reuses the cached configuration
(the recreated surface is created against the cached config, which is left
unchanged); the recovery paths that go through the full surface
initialization — in particular surface loss during Present — re-run
`eglChooseConfig` constraint-matching. -/
theorem config_reused_on_resume_reselected_on_recovery (env : EGLEnv) (w : Nat) (r : Int)
    (s : GLState) :
    (s.eglContextInitialized = true →
      env.makeCurrent s.display (env.createWindowSurface s.display s.config w) s.context
        = true →
      (Resume env w s).st.config = s.config ∧
      (Resume env w s).st.surface = env.createWindowSurface s.display s.config w) ∧
    (s.surface ≠ 0 → env.getDisplay ≠ 0 → env.initOk = true →
      Ev.chooseConfig env.getDisplay 24 ∈ (SwapBuffers env false EGL_BAD_SURFACE r s).tr) := by
  constructor
  · intro hinit hmc
    have hp := updateScreenSize_preserves env
      { s with window := w, surface := env.createWindowSurface s.display s.config w }
    simp only [Resume, hinit] at *
    simp only [if_neg (by simp : ¬(true = false))]
    rw [if_pos] <;> simp_all
  · intro hs hd hi
    have hmem := initEGLSurface_chooses_config env s hd hi
    simp only [SwapBuffers, if_neg hs]
    by_cases hex : (InitEGLSurface env s).exn.isSome <;> simp_all [EGL_BAD_SURFACE]

/-- Witness for C6 (amended): Resume's normal path keeps config 7 and creates
the surface from it; the Present recovery path's trace shows the re-run
constraint matching. -/
theorem config_reused_on_resume_reselected_on_recovery_witness :
    liveState.eglContextInitialized = true ∧
    benignEnv.makeCurrent liveState.display
      (benignEnv.createWindowSurface liveState.display liveState.config 3)
      liveState.context = true ∧
    (Resume benignEnv 3 liveState).st.config = liveState.config ∧
    liveState.surface ≠ 0 ∧
    Ev.chooseConfig benignEnv.getDisplay 24
      ∈ (SwapBuffers benignEnv false EGL_BAD_SURFACE 0 liveState).tr :=
  ⟨by decide, by decide,
   ((config_reused_on_resume_reselected_on_recovery benignEnv 3 0 liveState).1
      (by decide) (by decide)).1,
   by decide,
   (config_reused_on_resume_reselected_on_recovery benignEnv 3 0 liveState).2
      (by decide) (by decide) (by decide)⟩

/-- C3 counterexample: `SwapBuffers` checks only the surface handle, so in a
state whose display handle is at its sentinel (but whose surface is not)
Present is not a no-op: on a context-lost swap error with no platform context
available it mutates the cached state (surface and context handles are
cleared, the validity flag drops) and propagates an exception. -/
theorem present_noop_checks_only_surface_cex :
    sentinelDisplayState.display = 0 ∧
    (SwapBuffers noContextEnv false EGL_CONTEXT_LOST 1 sentinelDisplayState).exn
      = some "Failed to create EGLContext" ∧
    (SwapBuffers noContextEnv false EGL_CONTEXT_LOST 1 sentinelDisplayState).st.surface
      ≠ sentinelDisplayState.surface ∧
    (SwapBuffers noContextEnv false EGL_CONTEXT_LOST 1 sentinelDisplayState).st.context
      ≠ sentinelDisplayState.context ∧
    (SwapBuffers noContextEnv false EGL_CONTEXT_LOST 1 sentinelDisplayState).st.contextValid
      ≠ sentinelDisplayState.contextValid := by
  decide

/-- C3 (amended): Present no-ops exactly on a sentinel *surface* handle: it
logs a warning and returns without faulting and without mutating any cached
state.  Since Suspend leaves the surface at its sentinel, every Suspend
followed by Present with no Resume in between is such a no-op.  (Sentinel
display or context handles alone are not checked.) -/
theorem present_noop_after_suspend (env : EGLEnv) (swapOk : Bool) (err r : Int)
    (s s2 : GLState) :
    (s2.surface = 0 →
      (SwapBuffers env swapOk err r s2).st = s2 ∧
      (SwapBuffers env swapOk err r s2).exn = none ∧
      (SwapBuffers env swapOk err r s2).tr
        = [Ev.logWarning "No EGL surface when swapping buffers"]) ∧
    ((Suspend s).1.surface = 0 ∧
      (SwapBuffers env swapOk err r (Suspend s).1).st = (Suspend s).1 ∧
      (SwapBuffers env swapOk err r (Suspend s).1).exn = none ∧
      (SwapBuffers env swapOk err r (Suspend s).1).tr
        = [Ev.logWarning "No EGL surface when swapping buffers"]) := by
  have hsusp : (Suspend s).1.surface = 0 := by
    simp only [Suspend]
    split_ifs <;> simp_all
  constructor
  · intro h2
    simp [SwapBuffers, h2]
  · refine ⟨hsusp, ?_, ?_, ?_⟩ <;> simp [SwapBuffers, hsusp]

/-- Witness for C3 (amended): Suspend from the live state, then Present. -/
theorem present_noop_after_suspend_witness :
    ({ liveState with surface := 0 } : GLState).surface = 0 ∧
    (SwapBuffers benignEnv true EGL_SUCCESS 2 { liveState with surface := 0 }).st
      = { liveState with surface := 0 } ∧
    (SwapBuffers benignEnv true EGL_SUCCESS 2 (Suspend liveState).1).st
      = (Suspend liveState).1 ∧
    (SwapBuffers benignEnv true EGL_SUCCESS 2 (Suspend liveState).1).exn = none :=
  ⟨rfl,
   ((present_noop_after_suspend benignEnv true EGL_SUCCESS 2 liveState
      { liveState with surface := 0 }).1 (by decide)).1,
   (present_noop_after_suspend benignEnv true EGL_SUCCESS 2 liveState liveState).2.2.1,
   (present_noop_after_suspend benignEnv true EGL_SUCCESS 2 liveState liveState).2.2.2.1⟩

/-- C4: version negotiation attempts the fixed candidate list in strictly
descending order, stopping at the first success and recording the succeeding
(major, minor) pair (on total failure all candidates were attempted and the
negotiation throws); in particular, on a platform accepting only the lowest
candidate the recorded version is (3, 0), not a higher one. -/
theorem version_negotiation_descending (env : EGLEnv) (s : GLState) (h : s.context = 0) :
    List.Chain' (fun a b => b.1 < a.1 ∨ (a.1 = b.1 ∧ b.2 < a.2)) esVersions ∧
    (match firstAccepted env s.display s.config esVersions with
      | some vk =>
          (InitEGLContext env s).st.majorVersion = vk.1.1 ∧
          (InitEGLContext env s).st.minorVersion = vk.1.2 ∧
          (InitEGLContext env s).st.context = vk.2 ∧
          contextAttempts (InitEGLContext env s).tr
            = esVersions.take (esVersions.indexOf vk.1 + 1)
      | none =>
          (InitEGLContext env s).exn = some "Failed to create EGLContext" ∧
          contextAttempts (InitEGLContext env s).tr = esVersions) ∧
    (env.createContext s.display s.config 3 2 = 0 →
      env.createContext s.display s.config 3 1 = 0 →
      env.createContext s.display s.config 3 0 ≠ 0 →
      (InitEGLContext env s).st.majorVersion = 3 ∧
      (InitEGLContext env s).st.minorVersion = 0 ∧
      (InitEGLContext env s).st.context = env.createContext s.display s.config 3 0) := by
  have hrw := negotiate_esVersions_eq env s.display s.config s.majorVersion s.minorVersion
  refine ⟨by norm_num [esVersions, List.chain'_cons], ?_, ?_⟩ <;>
    by_cases h32 : env.createContext s.display s.config 3 2 = 0 <;>
      by_cases h31 : env.createContext s.display s.config 3 1 = 0 <;>
        by_cases h30 : env.createContext s.display s.config 3 0 = 0 <;>
          simp only [InitEGLContext, h, hrw, h32, h31, h30, ne_eq, not_true_eq_false,
            not_false_eq_true, if_true, if_false, ite_true, ite_false] <;>
            (try split_ifs) <;>
              simp_all [firstAccepted, contextAttempts, esVersions] <;>
                decide

/-- Witness for C4: with the benign platform the first candidate (3, 2) is
recorded; with a platform accepting only the lowest candidate, (3, 0) is. -/
theorem version_negotiation_descending_witness :
    freshState.context = 0 ∧
    (InitEGLContext benignEnv freshState).st.majorVersion = 3 ∧
    (InitEGLContext benignEnv freshState).st.minorVersion = 2 ∧
    (InitEGLContext benignEnv freshState).st.context = 13 ∧
    lowestOnlyEnv.createContext freshState.display freshState.config 3 2 = 0 ∧
    lowestOnlyEnv.createContext freshState.display freshState.config 3 1 = 0 ∧
    lowestOnlyEnv.createContext freshState.display freshState.config 3 0 = 21 ∧
    (InitEGLContext lowestOnlyEnv freshState).st.majorVersion = 3 ∧
    (InitEGLContext lowestOnlyEnv freshState).st.minorVersion = 0 ∧
    (InitEGLContext lowestOnlyEnv freshState).st.context = 21 :=
  ⟨rfl,
   (version_negotiation_descending benignEnv freshState rfl).2.1.1,
   (version_negotiation_descending benignEnv freshState rfl).2.1.2.1,
   (version_negotiation_descending benignEnv freshState rfl).2.1.2.2.1,
   by decide, by decide, by decide,
   ((version_negotiation_descending lowestOnlyEnv freshState rfl).2.2
      (by decide) (by decide) (by decide)).1,
   ((version_negotiation_descending lowestOnlyEnv freshState rfl).2.2
      (by decide) (by decide) (by decide)).2.1,
   ((version_negotiation_descending lowestOnlyEnv freshState rfl).2.2
      (by decide) (by decide) (by decide)).2.2⟩

/-- C1: a context-lost (or bad-context) swap failure during Present clears
the validity flag, runs the full teardown (after which display, context and
surface are at their sentinels and the flag is false), and renegotiates a
fresh context; when the platform grants a context at the first candidate and
it can be made current, the validity flag is true again afterwards with the
freshly negotiated (major, minor) = (3, 2) recorded. -/
theorem present_context_loss_recovery (env : EGLEnv) (err r : Int) (s : GLState) (k : Nat)
    (hs : s.surface ≠ 0) (herr : err = EGL_CONTEXT_LOST ∨ err = EGL_BAD_CONTEXT)
    (hk : env.createContext 0 s.config 3 2 = k) (hk0 : k ≠ 0)
    (hmc : env.makeCurrent 0 0 k = true) :
    (SwapBuffers env false err r s).st
        = (InitEGLContext env (Terminate { s with contextValid := false }).1).st ∧
    (Terminate { s with contextValid := false }).1.contextValid = false ∧
    (Terminate { s with contextValid := false }).1.display = 0 ∧
    (Terminate { s with contextValid := false }).1.surface = 0 ∧
    (Terminate { s with contextValid := false }).1.context = 0 ∧
    (SwapBuffers env false err r s).exn = none ∧
    (SwapBuffers env false err r s).st.contextValid = true ∧
    (SwapBuffers env false err r s).st.majorVersion = 3 ∧
    (SwapBuffers env false err r s).st.minorVersion = 2 ∧
    (SwapBuffers env false err r s).st.context = k := by
  have hbs : ¬err = EGL_BAD_SURFACE := by
    rcases herr with rfl | rfl <;> decide
  have hterm : (Terminate { s with contextValid := false }).1
      = { s with display := 0, context := 0, surface := 0, contextValid := false } := rfl
  simp only [SwapBuffers, if_neg hs, if_neg hbs, if_pos herr, hterm]
  simp [InitEGLContext, negotiate_esVersions_eq, hk, hk0, hmc]

/-- Witness for C1: context loss on the live state with the benign platform:
recovery renegotiates context 13 at version (3, 2) and the flag is true. -/
theorem present_context_loss_recovery_witness :
    liveState.surface ≠ 0 ∧
    benignEnv.createContext 0 liveState.config 3 2 = 13 ∧
    benignEnv.makeCurrent 0 0 13 = true ∧
    (SwapBuffers benignEnv false EGL_CONTEXT_LOST 1 liveState).exn = none ∧
    (SwapBuffers benignEnv false EGL_CONTEXT_LOST 1 liveState).st.contextValid = true ∧
    (SwapBuffers benignEnv false EGL_CONTEXT_LOST 1 liveState).st.majorVersion = 3 ∧
    (SwapBuffers benignEnv false EGL_CONTEXT_LOST 1 liveState).st.minorVersion = 2 ∧
    (SwapBuffers benignEnv false EGL_CONTEXT_LOST 1 liveState).st.context = 13 :=
  ⟨by decide, rfl, rfl,
   (present_context_loss_recovery benignEnv EGL_CONTEXT_LOST 1 liveState 13
      (by decide) (Or.inl rfl) rfl (by decide) rfl).2.2.2.2.2.1,
   (present_context_loss_recovery benignEnv EGL_CONTEXT_LOST 1 liveState 13
      (by decide) (Or.inl rfl) rfl (by decide) rfl).2.2.2.2.2.2.1,
   (present_context_loss_recovery benignEnv EGL_CONTEXT_LOST 1 liveState 13
      (by decide) (Or.inl rfl) rfl (by decide) rfl).2.2.2.2.2.2.2.1,
   (present_context_loss_recovery benignEnv EGL_CONTEXT_LOST 1 liveState 13
      (by decide) (Or.inl rfl) rfl (by decide) rfl).2.2.2.2.2.2.2.2.1,
   (present_context_loss_recovery benignEnv EGL_CONTEXT_LOST 1 liveState 13
      (by decide) (Or.inl rfl) rfl (by decide) rfl).2.2.2.2.2.2.2.2.2⟩

/-- C8: Resume on a never-initialized manager runs the full Init path (same
resulting state and exception, same platform calls after the resume log
line) and returns EGL_SUCCESS on success; with a window supplied, the
subsequently reported capability version is non-zero. -/
theorem resume_uninitialized_equals_init (env : EGLEnv) (w : Nat) (s : GLState)
    (h : s.eglContextInitialized = false) :
    (Resume env w s).st = (Init env w s).st ∧
    (Resume env w s).exn = (Init env w s).exn ∧
    (Resume env w s).tr = Ev.logInfo "Resuming gl context" :: (Init env w s).tr ∧
    ((Init env w s).exn = none → (Resume env w s).ret = some EGL_SUCCESS) ∧
    ((Init env w s).exn = none → w ≠ 0 → s.context = 0 →
      (FillDeviceCaps (Resume env w s).st).major ≠ 0) := by
  refine ⟨?_, ?_, ?_, ?_, ?_⟩
  · simp [Resume, h]
  · simp [Resume, h]
  · simp [Resume, h]
  · intro hexn
    simp [Resume, h, hexn]
  · intro hexn hw hc
    have hmaj := init_success_major env w s h hc hw hexn
    simp [Resume, h, FillDeviceCaps, hmaj]

/-- Witness for C8: a fresh manager resumed with a window against the benign
platform ends initialized with capability version 3.2. -/
theorem resume_uninitialized_equals_init_witness :
    freshState.eglContextInitialized = false ∧
    (Init benignEnv 3 freshState).exn = none ∧
    (Resume benignEnv 3 freshState).st = (Init benignEnv 3 freshState).st ∧
    (Resume benignEnv 3 freshState).ret = some EGL_SUCCESS ∧
    (FillDeviceCaps (Resume benignEnv 3 freshState).st).major ≠ 0 :=
  ⟨rfl, by decide,
   (resume_uninitialized_equals_init benignEnv 3 freshState rfl).1,
   (resume_uninitialized_equals_init benignEnv 3 freshState rfl).2.2.2.1 (by decide),
   (resume_uninitialized_equals_init benignEnv 3 freshState rfl).2.2.2.2
      (by decide) (by decide) rfl⟩

/-- C10: for an already-initialized manager whose initial make-current
attempt fails, Resume returns that attempt's platform error code even when
the internal recovery succeeds; it returns EGL_SUCCESS only when the
make-current attempt succeeds immediately or the manager was never
initialized. -/
theorem resume_error_code_passthrough (env : EGLEnv) (w : Nat) (s : GLState)
    (herr : env.makeCurrentError ≠ EGL_SUCCESS) :
    (s.eglContextInitialized = true →
      env.makeCurrent s.display (env.createWindowSurface s.display s.config w) s.context
          = true →
      (Resume env w s).ret = some EGL_SUCCESS) ∧
    (s.eglContextInitialized = true →
      env.makeCurrent s.display (env.createWindowSurface s.display s.config w) s.context
          = false →
      (Resume env w s).exn = none →
      (Resume env w s).ret = some env.makeCurrentError) ∧
    ((Resume env w s).ret = some EGL_SUCCESS →
      s.eglContextInitialized = false ∨
        env.makeCurrent s.display (env.createWindowSurface s.display s.config w) s.context
          = true) := by
  obtain ⟨d, srf0, ctx, cfg, win, cs, ds, mj, mn, mini, maxi, sw, sh, cv, eci, gi⟩ := s
  cases eci
  · refine ⟨by simp, by simp, ?_⟩
    intro _
    exact Or.inl rfl
  · have hu := updateScreenSize_preserves env
      ⟨d, env.createWindowSurface d cfg w, ctx, cfg, w, cs, ds, mj, mn, mini, maxi,
        sw, sh, cv, true, gi⟩
    by_cases hmc : env.makeCurrent d (env.createWindowSurface d cfg w) ctx = true
    · refine ⟨fun _ _ => ?_, fun _ hf _ => ?_, fun _ => Or.inr hmc⟩
      · simp [Resume, hu.1, hu.2.2.1, hmc]
      · exact absurd hmc (by simp [hf])
    · have hmcf : env.makeCurrent d (env.createWindowSurface d cfg w) ctx = false := by
        simpa using hmc
      refine ⟨fun _ hmt => absurd hmt hmc, fun _ _ hexn => ?_, fun hret => ?_⟩
      · revert hexn
        simp only [Resume, hu.1, hu.2.2.1, hmcf]
        split_ifs <;> simp_all [Option.isSome_iff_ne_none]
      · exfalso
        revert hret
        simp only [Resume, hu.1, hu.2.2.1, hmcf]
        split_ifs <;> simp_all [Option.isSome_iff_ne_none, EGL_SUCCESS]

/-- Witness for C10: on the live state with a platform that rejects the old
context but accepts the renegotiated one, Resume's recovery succeeds and the
returned code is the make-current failure code EGL_BAD_SURFACE, not
EGL_SUCCESS. -/
theorem resume_error_code_passthrough_witness :
    liveState.eglContextInitialized = true ∧
    resumeFailEnv.makeCurrent liveState.display
        (resumeFailEnv.createWindowSurface liveState.display liveState.config 3)
        liveState.context = false ∧
    (Resume resumeFailEnv 3 liveState).exn = none ∧
    (Resume resumeFailEnv 3 liveState).ret = some resumeFailEnv.makeCurrentError ∧
    resumeFailEnv.makeCurrentError = EGL_BAD_SURFACE :=
  ⟨rfl, by decide, by decide,
   (resume_error_code_passthrough resumeFailEnv 3 liveState (by decide)).2.1
      rfl (by decide) (by decide),
   rfl⟩

end GLContextAndroid
